import Mathlib

set_option maxRecDepth 8192

namespace SalesETL

/-!
Shallow embedding of the sales-analytics ETL pipeline
(`src/etl/order_info_etl.py` and `src/etl/product_info_etl.py`).

Machine integers are modelled as `Nat` with explicit `% 2^w` where the
Python code relies on fixed-width arithmetic.  `None`/`NaN`-able values are
modelled as `Option`.
-/

/-! ### MD5 (embedding of `hashlib.md5`, RFC 1321)

`stable_customer_id` calls `hashlib.md5(...).hexdigest()`.  The hash is
implemented here in full over byte lists so that the identity resolver is
an executable function of its inputs. -/

def rotl32 (x n : Nat) : Nat := ((x <<< n) % 4294967296) ||| (x >>> (32 - n))

def not32 (x : Nat) : Nat := x ^^^ 4294967295

def kTable : List Nat :=
  [0xd76aa478, 0xe8c7b756, 0x242070db, 0xc1bdceee,
   0xf57c0faf, 0x4787c62a, 0xa8304613, 0xfd469501,
   0x698098d8, 0x8b44f7af, 0xffff5bb1, 0x895cd7be,
   0x6b901122, 0xfd987193, 0xa679438e, 0x49b40821,
   0xf61e2562, 0xc040b340, 0x265e5a51, 0xe9b6c7aa,
   0xd62f105d, 0x02441453, 0xd8a1e681, 0xe7d3fbc8,
   0x21e1cde6, 0xc33707d6, 0xf4d50d87, 0x455a14ed,
   0xa9e3e905, 0xfcefa3f8, 0x676f02d9, 0x8d2a4c8a,
   0xfffa3942, 0x8771f681, 0x6d9d6122, 0xfde5380c,
   0xa4beea44, 0x4bdecfa9, 0xf6bb4b60, 0xbebfbc70,
   0x289b7ec6, 0xeaa127fa, 0xd4ef3085, 0x04881d05,
   0xd9d4d039, 0xe6db99e5, 0x1fa27cf8, 0xc4ac5665,
   0xf4292244, 0x432aff97, 0xab9423a7, 0xfc93a039,
   0x655b59c3, 0x8f0ccc92, 0xffeff47d, 0x85845dd1,
   0x6fa87e4f, 0xfe2ce6e0, 0xa3014314, 0x4e0811a1,
   0xf7537e82, 0xbd3af235, 0x2ad7d2bb, 0xeb86d391]

def sTable : List Nat :=
  [7, 12, 17, 22, 7, 12, 17, 22, 7, 12, 17, 22, 7, 12, 17, 22,
   5, 9, 14, 20, 5, 9, 14, 20, 5, 9, 14, 20, 5, 9, 14, 20,
   4, 11, 16, 23, 4, 11, 16, 23, 4, 11, 16, 23, 4, 11, 16, 23,
   6, 10, 15, 21, 6, 10, 15, 21, 6, 10, 15, 21, 6, 10, 15, 21]

structure MDState where
  a : Nat
  b : Nat
  c : Nat
  d : Nat
deriving Repr, DecidableEq

def initMD : MDState := ⟨0x67452301, 0xefcdab89, 0x98badcfe, 0x10325476⟩

def md5F (i b c d : Nat) : Nat :=
  if i < 16 then (b &&& c) ||| (not32 b &&& d)
  else if i < 32 then (d &&& b) ||| (not32 d &&& c)
  else if i < 48 then b ^^^ c ^^^ d
  else c ^^^ (b ||| not32 d)

def md5G (i : Nat) : Nat :=
  if i < 16 then i
  else if i < 32 then (5 * i + 1) % 16
  else if i < 48 then (3 * i + 5) % 16
  else (7 * i) % 16

def md5Round (m : List Nat) (st : MDState) (i : Nat) : MDState :=
  let f := (md5F i st.b st.c st.d + st.a + kTable.getD i 0 + m.getD (md5G i) 0) % 4294967296
  ⟨st.d, (st.b + rotl32 f (sTable.getD i 0)) % 4294967296, st.b, st.c⟩

def wordsOfBlock (blk : List Nat) : List Nat :=
  (List.range 16).map (fun j =>
    blk.getD (4 * j) 0 + blk.getD (4 * j + 1) 0 * 256 +
    blk.getD (4 * j + 2) 0 * 65536 + blk.getD (4 * j + 3) 0 * 16777216)

def processBlock (st : MDState) (blk : List Nat) : MDState :=
  let m := wordsOfBlock blk
  let e := (List.range 64).foldl (md5Round m) st
  ⟨(st.a + e.a) % 4294967296, (st.b + e.b) % 4294967296,
   (st.c + e.c) % 4294967296, (st.d + e.d) % 4294967296⟩

def leBytes (n count : Nat) : List Nat :=
  (List.range count).map (fun i => (n >>> (8 * i)) % 256)

def padMessage (msg : List Nat) : List Nat :=
  let zeros := (119 - msg.length % 64) % 64
  msg ++ [128] ++ List.replicate zeros 0 ++
    leBytes ((8 * msg.length) % 18446744073709551616) 8

def md5Bytes (msg : List Nat) : List Nat :=
  let padded := padMessage msg
  let fin := ((List.range (padded.length / 64)).map
      (fun i => (padded.drop (64 * i)).take 64)).foldl processBlock initMD
  leBytes fin.a 4 ++ leBytes fin.b 4 ++ leBytes fin.c 4 ++ leBytes fin.d 4

def hexChar (n : Nat) : Char := if n < 10 then Char.ofNat (48 + n) else Char.ofNat (87 + n)

def md5hexdigest (msg : List Nat) : String :=
  String.mk (((md5Bytes msg).map (fun b => [hexChar (b / 16), hexChar (b % 16)])).flatten)

/-! ### UTF-8 encoding (embedding of `str.encode("utf-8")`) -/

def utf8Char (c : Char) : List Nat :=
  let n := c.toNat
  if n < 128 then [n]
  else if n < 2048 then [192 + n / 64, 128 + n % 64]
  else if n < 65536 then [224 + n / 4096, 128 + n / 64 % 64, 128 + n % 64]
  else [240 + n / 262144, 128 + n / 4096 % 64, 128 + n / 64 % 64, 128 + n % 64]

def utf8Bytes (s : String) : List Nat := (s.data.map utf8Char).flatten

/-! ### Identity resolver (`stable_customer_id`) -/

def hexVal (c : Char) : Nat :=
  if c.toNat ≥ 97 then c.toNat - 87
  else if c.toNat ≥ 65 then c.toNat - 55
  else c.toNat - 48

def intOfHex (s : String) : Nat := s.data.foldl (fun acc c => 16 * acc + hexVal c) 0

def pyStr : Option String → String
  | none => ("None" : String)
  | some s => s

def rawTriple (name addr postal : Option String) : String :=
  pyStr name ++ "|" ++ pyStr addr ++ "|" ++ pyStr postal

def stable_customer_id (name addr postal : Option String) : Nat :=
  let h := (md5hexdigest (utf8Bytes (rawTriple name addr postal))).take 16
  intOfHex h &&& 9223372036854775807

/-- Sanity check of the hash embedding against the published MD5 test vector
for the message `abc`. -/
theorem md5_abc_vector : md5hexdigest (utf8Bytes ("abc")) = "900150983cd24fb0d6963f7d28e17f72" := by
  decide

/-- Claim C2: for every (name, address, postal) input triple,
`stable_customer_id` is a pure deterministic function — two calls with
identical inputs return identical output — and its result always lies in
the interval [0, 2^63 - 1] (it is a `Nat`, so nonnegative by construction,
and the final 63-bit mask bounds it above). -/
theorem c2_stable_customer_id_deterministic_and_in_range
    (name addr postal : Option String) :
    stable_customer_id name addr postal = stable_customer_id name addr postal
    ∧ stable_customer_id name addr postal ≤ 2 ^ 63 - 1 := by
  refine ⟨rfl, ?_⟩
  have h : stable_customer_id name addr postal ≤ 9223372036854775807 := Nat.and_le_right
  exact le_trans h (by norm_num)

/-- Claim C9: distinct input triples can collide without any hash collision:
the Python `None` value is rendered as the literal string `None` by the
f-string, so a `None` field and the text `None` build the same raw string,
and the `|` delimiter is not escaped inside fields, so moving a `|` across
the field boundary builds the same raw string; in both cases
`stable_customer_id` returns the same id because the hashed bytes are equal. -/
theorem c9_identity_collisions_without_hash_collision :
    (∀ a p : Option String,
        rawTriple none a p = rawTriple (some ("None")) a p
      ∧ stable_customer_id none a p = stable_customer_id (some ("None")) a p)
    ∧ (∀ p : Option String,
        rawTriple (some ("a|b")) (some ("c")) p = rawTriple (some ("a")) (some ("b|c")) p
      ∧ stable_customer_id (some ("a|b")) (some ("c")) p
          = stable_customer_id (some ("a")) (some ("b|c")) p) :=
  ⟨fun _ _ => ⟨rfl, rfl⟩, fun _ => ⟨rfl, rfl⟩⟩

/-! ### Normalizer: unit-suffixed numeric fields (`strip_units_to_float`)

`s.astype(str).str.extract(r"([0-9]+(?:\.[0-9]+)?)")[0].astype(float)`:
the first (leftmost) match of the numeral pattern is extracted; a value
with no numeral yields null. -/

def digitsToNat (ds : List Char) : Nat := ds.foldl (fun acc c => 10 * acc + (c.toNat - 48)) 0

/-- Greedy match of `[0-9]+(?:\.[0-9]+)?` starting at the current position
(the caller guarantees the head is a digit). -/
def numeralFrom (cs : List Char) : List Char :=
  let ds := cs.takeWhile (fun c => c.isDigit)
  let rest := cs.dropWhile (fun c => c.isDigit)
  match rest with
  | '.' :: r =>
    let fs := r.takeWhile (fun c => c.isDigit)
    if fs.isEmpty then ds else ds ++ '.' :: fs
  | _ => ds

/-- Leftmost match of the numeral pattern, as performed by `str.extract`. -/
def findFirstNumeral : List Char → Option (List Char)
  | [] => none
  | c :: cs => if c.isDigit then some (numeralFrom (c :: cs)) else findFirstNumeral cs

/-- Exact rational value of a decimal numeral (digits, optionally `.` digits). -/
def decToRat (cs : List Char) : ℚ :=
  let ip := cs.takeWhile (fun c => c.isDigit)
  let rest := cs.dropWhile (fun c => c.isDigit)
  match rest with
  | '.' :: fp => mkRat (digitsToNat ip * 10 ^ fp.length + digitsToNat fp) (10 ^ fp.length)
  | _ => mkRat (digitsToNat ip) 1

/-- `Series.astype(str)` renders a missing value as the text `nan`. -/
def pdAstypeStr : Option String → String
  | none => ("nan" : String)
  | some s => s

def strip_units_to_float (v : Option String) : Option ℚ :=
  (findFirstNumeral (pdAstypeStr v).data).map decToRat

lemma findFirstNumeral_eq_none (l : List Char) (h : ∀ c ∈ l, ¬ c.isDigit) :
    findFirstNumeral l = none := by
  induction l with
  | nil => rfl
  | cons c cs ih =>
    have hc : c.isDigit = false := by
      have := h c (List.mem_cons_self c cs)
      simpa using this
    simp [findFirstNumeral, hc]
    exact ih (fun x hx => h x (List.mem_cons_of_mem c hx))

lemma findFirstNumeral_append (l₁ l₂ : List Char) (h : ∀ c ∈ l₁, ¬ c.isDigit) :
    findFirstNumeral (l₁ ++ l₂) = findFirstNumeral l₂ := by
  induction l₁ with
  | nil => rfl
  | cons c cs ih =>
    have hc : c.isDigit = false := by
      have := h c (List.mem_cons_self c cs)
      simpa using this
    simp [findFirstNumeral, hc]
    exact ih (fun x hx => h x (List.mem_cons_of_mem c hx))

/-- Claim C4: the extracted value of a unit-suffixed numeric string is its
first decimal numeral (a digit-free text prefix is skipped, so the numeral
found is the leading one), a string with no numeral yields null, and in
particular the spec's three examples hold. -/
theorem c4_strip_units_leading_numeral (s : String) (hnd : ∀ c ∈ s.data, ¬ c.isDigit) :
    strip_units_to_float (some ("8.9523ft3")) = some (mkRat 89523 10000)
  ∧ strip_units_to_float (some ("78.2641lb")) = some (mkRat 782641 10000)
  ∧ (mkRat 89523 10000 : ℚ) = 89523 / 10000
  ∧ (mkRat 782641 10000 : ℚ) = 782641 / 10000
  ∧ strip_units_to_float (some ("N/A")) = none
  ∧ strip_units_to_float none = none
  ∧ strip_units_to_float (some s) = none
  ∧ ∀ t : String, strip_units_to_float (some (s ++ t)) = strip_units_to_float (some t) := by
  refine ⟨by decide, by decide, by norm_num [mkRat, Rat.normalize], by norm_num [mkRat, Rat.normalize],
    by decide, rfl, ?_, ?_⟩
  · simp [strip_units_to_float, pdAstypeStr, findFirstNumeral_eq_none s.data hnd]
  · intro t
    have hdata : (s ++ t).data = s.data ++ t.data := rfl
    simp [strip_units_to_float, pdAstypeStr, hdata,
      findFirstNumeral_append s.data t.data hnd]

/-- Witness for C4 at concrete inputs. -/
theorem c4_strip_units_leading_numeral_witness :
    strip_units_to_float (some ("kg")) = none
  ∧ strip_units_to_float (some ("kg" ++ "8.9523ft3")) = strip_units_to_float (some ("8.9523ft3")) :=
  ⟨(c4_strip_units_leading_numeral "kg" (by decide)).2.2.2.2.2.2.1,
   (c4_strip_units_leading_numeral "kg" (by decide)).2.2.2.2.2.2.2 "8.9523ft3"⟩

/-! ### Normalizer: timestamp parsing (`parse_datetime_series`) -/

def isLeap (y : Nat) : Bool := (y % 4 == 0 && y % 100 != 0) || y % 400 == 0

def daysInMonth (y m : Nat) : Nat :=
  if m = 2 then (if isLeap y then 29 else 28)
  else if m = 4 ∨ m = 6 ∨ m = 9 ∨ m = 11 then 30
  else 31

structure PyDateTime where
  year : Nat
  month : Nat
  day : Nat
  hour : Nat
  minute : Nat
  second : Nat
deriving Repr, DecidableEq

def mkValidDT (y mo d h mi s : Nat) : Option PyDateTime :=
  if 1 ≤ mo ∧ mo ≤ 12 ∧ 1 ≤ d ∧ d ≤ daysInMonth y mo ∧ h ≤ 23 ∧ mi ≤ 59 ∧ s ≤ 59 then
    some ⟨y, mo, d, h, mi, s⟩
  else none

def twoDigits (a b : Char) : Nat := 10 * (a.toNat - 48) + (b.toNat - 48)

/-- Strict parse against the fixed pattern `%Y-%m-%d %H:%M:%S`. -/
def strictParseDT (s : String) : Option PyDateTime :=
  match s.data with
  | [y1, y2, y3, y4, c1, m1, m2, c2, e1, e2, c3, h1, h2, c4, n1, n2, c5, s1, s2] =>
    if ([y1, y2, y3, y4, m1, m2, e1, e2, h1, h2, n1, n2, s1, s2].all (fun c => c.isDigit))
        ∧ c1 = '-' ∧ c2 = '-' ∧ c3 = ' ' ∧ c4 = ':' ∧ c5 = ':' then
      mkValidDT (digitsToNat [y1, y2, y3, y4]) (twoDigits m1 m2) (twoDigits e1 e2)
        (twoDigits h1 h2) (twoDigits n1 n2) (twoDigits s1 s2)
    else none
  | _ => none

/-- Heuristic inference (`pd.to_datetime` without a format, dateutil-style),
modelled on the ISO-like subset relevant here: `-` or `/` as the date
separator, with or without a time part. -/
def inferParseDT (s : String) : Option PyDateTime :=
  match s.data with
  | [y1, y2, y3, y4, c1, m1, m2, c2, e1, e2] =>
    if ([y1, y2, y3, y4, m1, m2, e1, e2].all (fun c => c.isDigit))
        ∧ (c1 = '-' ∨ c1 = '/') ∧ c2 = c1 then
      mkValidDT (digitsToNat [y1, y2, y3, y4]) (twoDigits m1 m2) (twoDigits e1 e2) 0 0 0
    else none
  | [y1, y2, y3, y4, c1, m1, m2, c2, e1, e2, c3, h1, h2, c4, n1, n2, c5, s1, s2] =>
    if ([y1, y2, y3, y4, m1, m2, e1, e2, h1, h2, n1, n2, s1, s2].all (fun c => c.isDigit))
        ∧ (c1 = '-' ∨ c1 = '/') ∧ c2 = c1 ∧ c3 = ' ' ∧ c4 = ':' ∧ c5 = ':' then
      mkValidDT (digitsToNat [y1, y2, y3, y4]) (twoDigits m1 m2) (twoDigits e1 e2)
        (twoDigits h1 h2) (twoDigits n1 n2) (twoDigits s1 s2)
    else none
  | _ => none

def to_datetime_coerce_strict (xs : List (Option String)) : List (Option PyDateTime) :=
  xs.map (fun v => v.bind strictParseDT)

def to_datetime_coerce_infer (xs : List (Option String)) : List (Option PyDateTime) :=
  xs.map (fun v => v.bind inferParseDT)

/-- Embedding of `parse_datetime_series`: the body calls
`pd.to_datetime(s, format=fmt, errors="coerce")` inside `try`.  Because
`errors="coerce"` turns every per-value parse failure into `NaT` instead of
raising, the `except` branch (heuristic inference) is unreachable for
unparsable values, and the whole series is parsed by the strict route only. -/
def parse_datetime_series (xs : List (Option String)) : List (Option PyDateTime) :=
  to_datetime_coerce_strict xs

/-- Claim C3 (code bug): a strictly formatted value parses, but a value the
heuristic route would parse is coerced straight to null — the heuristic
fallback is never attempted per value, contradicting the claim (and the
function's own comment); truly unparsable values also become null, and the
embedding is total, so no value raises. -/
theorem c3_coerce_skips_heuristic_fallback :
    parse_datetime_series
        [some ("2024-01-15 10:30:00"), some ("2024/01/15 10:30:00"), some ("nonsense"), none]
      = [some ⟨2024, 1, 15, 10, 30, 0⟩, none, none, none]
  ∧ to_datetime_coerce_infer [some ("2024/01/15 10:30:00")] = [some ⟨2024, 1, 15, 10, 30, 0⟩] := by
  decide

/-! ### Normalizer: quantity cleaning (`goodsNumber`)

`pd.to_numeric(col, errors="coerce").fillna(1).astype(int)`. -/

def isSpaceChar (c : Char) : Bool := c = ' ' ∨ c = '\t' ∨ c = '\n' ∨ c = '\r'

def trimChars (cs : List Char) : List Char :=
  ((cs.dropWhile isSpaceChar).reverse.dropWhile isSpaceChar).reverse

/-- Unsigned mantissa parse: returns the numerator, the number of fraction
digits (so the value is numerator over ten to that power), and the rest. -/
def parseUnsignedDec (cs : List Char) : Option (Nat × Nat × List Char) :=
  let ip := cs.takeWhile (fun c => c.isDigit)
  let r1 := cs.dropWhile (fun c => c.isDigit)
  match r1 with
  | '.' :: r2 =>
    let fp := r2.takeWhile (fun c => c.isDigit)
    let r3 := r2.dropWhile (fun c => c.isDigit)
    if ip.isEmpty && fp.isEmpty then none
    else some (digitsToNat ip * 10 ^ fp.length + digitsToNat fp, fp.length, r3)
  | _ => if ip.isEmpty then none else some (digitsToNat ip, 0, r1)

/-- Embedding of `pd.to_numeric(..., errors="coerce")` on a single string
cell: optional sign, decimal numeral with optional fraction and exponent,
surrounding whitespace tolerated; anything else coerces to null.
Non-finite spellings (infinities) are outside the modelled inputs. -/
def parsePyNumeric (s : String) : Option ℚ :=
  let cs := trimChars s.data
  let neg : Bool := match cs with | '-' :: _ => true | _ => false
  let cs1 := match cs with | '-' :: r => r | '+' :: r => r | _ => cs
  match parseUnsignedDec cs1 with
  | none => none
  | some (n, fdigits, rest) =>
    let num : Int := if neg then -(n : Int) else (n : Int)
    match rest with
    | [] => some (mkRat num (10 ^ fdigits))
    | 'e' :: r | 'E' :: r =>
      let epos : Bool := match r with | '-' :: _ => false | _ => true
      let r2 := match r with | '-' :: rr => rr | '+' :: rr => rr | _ => r
      let ed := r2.takeWhile (fun c => c.isDigit)
      let r3 := r2.dropWhile (fun c => c.isDigit)
      if ed.isEmpty || !r3.isEmpty then none
      else if epos then some (mkRat (num * 10 ^ digitsToNat ed) (10 ^ fdigits))
      else some (mkRat num (10 ^ fdigits * 10 ^ digitsToNat ed))
    | _ => none

/-- Truncation toward zero, the semantics of numpy `astype(int)` on floats. -/
def truncRat (q : ℚ) : Int := Int.tdiv q.num (q.den : Int)

/-- Embedding of the cleaning of the `goodsNumber` column. -/
def clean_goodsNumber (v : Option String) : Int :=
  match v.bind parsePyNumeric with
  | some q => truncRat q
  | none => 1

/-- Claim C10: a quantity string parsing as a non-integer number is
truncated to an integer (`2.7` gives 2, not the default 1), zero and
negative numeric quantities pass through unchanged, and only missing or
non-numeric values default to 1. -/
theorem c10_quantity_truncation :
    clean_goodsNumber (some ("2.7")) = 2
  ∧ clean_goodsNumber (some ("0")) = 0
  ∧ clean_goodsNumber (some ("-3")) = -3
  ∧ clean_goodsNumber (some ("-2.7")) = -2
  ∧ clean_goodsNumber none = 1
  ∧ clean_goodsNumber (some ("N/A")) = 1
  ∧ (∀ s : String, ∀ q : ℚ, parsePyNumeric s = some q → clean_goodsNumber (some s) = truncRat q)
  ∧ (∀ s : String, parsePyNumeric s = none → clean_goodsNumber (some s) = 1) := by
  refine ⟨by decide, by decide, by decide, by decide, rfl, by decide, ?_, ?_⟩
  · intro s q h
    simp [clean_goodsNumber, h]
  · intro s h
    simp [clean_goodsNumber, h]

/-- Witness for C10 at concrete inputs. -/
theorem c10_quantity_truncation_witness :
    clean_goodsNumber (some ("2.7")) = truncRat (mkRat 27 10)
  ∧ clean_goodsNumber (some ("abc")) = 1 :=
  ⟨(c10_quantity_truncation).2.2.2.2.2.2.1 "2.7" (mkRat 27 10) (by decide),
   (c10_quantity_truncation).2.2.2.2.2.2.2 "abc" (by decide)⟩

/-! ### Date dimension builder (`ensure_dim_date`)

Calendar days are modelled as day numbers (days since 1970-01-01, the
representation underlying `pandas.date_range(..., freq="D")`); the civil
calendar fields are derived by the standard civil-from-days conversion. -/

/-- Civil year of a day number (days since 1970-01-01). -/
def civilYear (z : Nat) : Nat :=
  let w := z + 719468
  let era := w / 146097
  let doe := w % 146097
  let yoe := (doe - doe / 1460 + doe / 36524 - doe / 146096) / 365
  let mp := (5 * (doe - (365 * yoe + yoe / 4 - yoe / 100)) + 2) / 153
  if (if mp < 10 then mp + 3 else mp - 9) ≤ 2 then yoe + era * 400 + 1 else yoe + era * 400

/-- Civil month (1..12) of a day number. -/
def civilMonth (z : Nat) : Nat :=
  let w := z + 719468
  let doe := w % 146097
  let yoe := (doe - doe / 1460 + doe / 36524 - doe / 146096) / 365
  let mp := (5 * (doe - (365 * yoe + yoe / 4 - yoe / 100)) + 2) / 153
  if mp < 10 then mp + 3 else mp - 9

/-- Civil day of month (1..31) of a day number. -/
def civilDay (z : Nat) : Nat :=
  let w := z + 719468
  let doe := w % 146097
  let yoe := (doe - doe / 1460 + doe / 36524 - doe / 146096) / 365
  let doy := doe - (365 * yoe + yoe / 4 - yoe / 100)
  let mp := (5 * doy + 2) / 153
  doy - (153 * mp + 2) / 5 + 1

/-- Day number (days since 1970-01-01) of a civil date on or after 1970. -/
def daysFromCivil (y m d : Nat) : Nat :=
  let y1 := if m ≤ 2 then y - 1 else y
  let era := y1 / 400
  let yoe := y1 % 400
  let mp := if m > 2 then m - 3 else m + 9
  let doy := (153 * mp + 2) / 5 + d - 1
  let doe := yoe * 365 + yoe / 4 - yoe / 100 + doy
  era * 146097 + doe - 719468

/-- Day of week in the pandas `dayofweek` convention, Monday = 0 .. Sunday = 6
(1970-01-01 was a Thursday). -/
def weekdayOfDay (z : Nat) : Nat := (z + 3) % 7

def monthName : Nat → String
  | 1 => ("January" : String)
  | 2 => ("February" : String)
  | 3 => ("March" : String)
  | 4 => ("April" : String)
  | 5 => ("May" : String)
  | 6 => ("June" : String)
  | 7 => ("July" : String)
  | 8 => ("August" : String)
  | 9 => ("September" : String)
  | 10 => ("October" : String)
  | 11 => ("November" : String)
  | 12 => ("December" : String)
  | _ => ("" : String)

structure DatePoint where
  date_id : Nat
  year : Nat
  quarter : Nat
  month : Nat
  month_name : String
  day : Nat
  day_of_week : Nat
  is_weekend : Bool
deriving Repr, DecidableEq

/-- One row of the date dataframe built by `ensure_dim_date`. -/
def mkDatePoint (z : Nat) : DatePoint :=
  { date_id := z
    year := civilYear z
    quarter := (civilMonth z - 1) / 3 + 1
    month := civilMonth z
    month_name := monthName (civilMonth z)
    day := civilDay z
    day_of_week := weekdayOfDay z + 1
    is_weekend := decide (5 ≤ weekdayOfDay z) }

/-- The dataframe built for the inclusive range
(`pd.date_range(min_date, max_date, freq="D")` plus the derived columns). -/
def dateRangePoints (mn mx : Nat) : List DatePoint :=
  (List.range' mn (mx + 1 - mn)).map mkDatePoint

/-- The `MERGE` of the staged date rows into `dim_date`: only
`WHEN NOT MATCHED THEN INSERT` — matched target rows are never touched. -/
def dimDateMerge (dim src : List DatePoint) : List DatePoint :=
  dim ++ src.filter (fun dp => !(dim.any (fun r => r.date_id == dp.date_id)))

/-- Embedding of `ensure_dim_date`: no-op when either bound is null,
otherwise merge-insert of the materialized range. -/
def ensure_dim_date (mn mx : Option Nat) (dim : List DatePoint) : List DatePoint :=
  match mn, mx with
  | some a, some b => dimDateMerge dim (dateRangePoints a b)
  | _, _ => dim

/-- Claim C6: for non-null bounds with `mn ≤ mx` the builder produces
exactly one DatePoint per calendar day of the inclusive range — the ids are
exactly the range, without duplicates — quarter is `((month - 1) div 3) + 1`,
the weekend flag holds exactly on Saturday and Sunday (pandas day numbers 5
and 6, stored `day_of_week` 6 and 7), and the spec's concrete range
2024-01-30 .. 2024-02-02 yields exactly 4 DatePoints. -/
theorem c6_date_range_complete (mn mx : Nat) (h : mn ≤ mx) :
    ((dateRangePoints mn mx).map (fun dp => dp.date_id) = List.range' mn (mx + 1 - mn))
  ∧ ((dateRangePoints mn mx).map (fun dp => dp.date_id)).Nodup
  ∧ (∀ z : Nat, z ∈ (dateRangePoints mn mx).map (fun dp => dp.date_id) ↔ mn ≤ z ∧ z ≤ mx)
  ∧ (dateRangePoints mn mx).length = mx + 1 - mn
  ∧ (∀ dp ∈ dateRangePoints mn mx,
        dp.quarter = (dp.month - 1) / 3 + 1
      ∧ (dp.is_weekend = true ↔ (weekdayOfDay dp.date_id = 5 ∨ weekdayOfDay dp.date_id = 6))
      ∧ (dp.is_weekend = true ↔ (dp.day_of_week = 6 ∨ dp.day_of_week = 7)))
  ∧ (dateRangePoints (daysFromCivil 2024 1 30) (daysFromCivil 2024 2 2)).length = 4 := by
  have hmap : (dateRangePoints mn mx).map (fun dp => dp.date_id) = List.range' mn (mx + 1 - mn) := by
    simp [dateRangePoints, List.map_map]
    exact List.map_id _
  refine ⟨hmap, ?_, ?_, ?_, ?_, by decide⟩
  · rw [hmap]; exact List.nodup_range' _ _
  · intro z
    rw [hmap, List.mem_range'_1]
    omega
  · have hlen := congrArg List.length hmap
    simp only [List.length_map, List.length_range'] at hlen
    simp [dateRangePoints]
  · intro dp hdp
    rcases List.mem_map.mp hdp with ⟨z, _, rfl⟩
    have hw : weekdayOfDay z < 7 := Nat.mod_lt _ (by norm_num)
    refine ⟨rfl, ?_, ?_⟩
    · simp only [mkDatePoint, decide_eq_true_eq]
      omega
    · simp only [mkDatePoint, decide_eq_true_eq]
      omega

/-- Witness for C6 on the spec's concrete range (2024-01-30 has day number
19752 and 2024-02-02 has 19755). -/
theorem c6_date_range_complete_witness :
    (dateRangePoints (daysFromCivil 2024 1 30) (daysFromCivil 2024 2 2)).length = 4 :=
  (c6_date_range_complete 19752 19755 (by decide)).2.2.2.2.2

/-- Claim C7: the date dimension is append-only — every run of
`ensure_dim_date` leaves each pre-existing row unchanged in place (the
result extends the old table, the merge inserts only ids not already
present and never updates or deletes), and a null bound on either side
changes nothing. -/
theorem c7_dim_date_append_only (mn mx : Option Nat) (dim : List DatePoint) :
    (∃ ins, ensure_dim_date mn mx dim = dim ++ ins
      ∧ ∀ dp ∈ ins, ∀ r ∈ dim, r.date_id ≠ dp.date_id)
  ∧ ensure_dim_date none mx dim = dim
  ∧ ensure_dim_date mn none dim = dim := by
  refine ⟨?_, rfl, ?_⟩
  · match mn, mx with
    | some a, some b =>
      refine ⟨(dateRangePoints a b).filter
        (fun dp => !(dim.any (fun r => r.date_id == dp.date_id))), rfl, ?_⟩
      intro dp hdp r hr
      have hmem := List.of_mem_filter hdp
      simp at hmem
      exact fun hEq => (hmem r hr) hEq
    | none, _ => exact ⟨[], by simp [ensure_dim_date], by simp⟩
    | some a, none => exact ⟨[], by simp [ensure_dim_date], by simp⟩
  · match mn with
    | none => rfl
    | some a => rfl

/-- Witness for C7 at concrete bounds: a null bound leaves the dimension
unchanged, and a run over a concrete range extends the existing table. -/
theorem c7_dim_date_append_only_witness :
    ensure_dim_date none (some 19755) [mkDatePoint 19752] = [mkDatePoint 19752]
  ∧ ∃ ins, ensure_dim_date (some 19752) (some 19755) [mkDatePoint 19752]
      = [mkDatePoint 19752] ++ ins
      ∧ ∀ dp ∈ ins, ∀ r ∈ [mkDatePoint 19752], r.date_id ≠ dp.date_id :=
  ⟨(c7_dim_date_append_only none (some 19755) [mkDatePoint 19752]).2.1,
   (c7_dim_date_append_only (some 19752) (some 19755) [mkDatePoint 19752]).1⟩

/-! ### Warehouse model: staging, dimensions, fact table

The staged batch carries the cleaned columns used by the upsert and fact
steps; `submitTime` is the DATE part of the configured fact date source
(`FACT_DATE_SOURCE = "submitTime"`), as a day number. -/

structure StagedRow where
  orderNo : Option String
  commercePlatform : Option String
  submitTime : Option Nat
  product_key : Option String
  customer_id : Option Nat
  state_code : Option String
  postalCode : Option String
  goodsNumber : Option Int
deriving Repr, DecidableEq

structure DimPlatformRow where
  platform_id : Nat
  platform_name : String
deriving Repr, DecidableEq

structure DimProductRow where
  product_id : Nat
  main_sku_code : String
  english_name : Option String
  chinese_name : Option String
  customer_code : Option String
  category : Option String
deriving Repr, DecidableEq

structure DimCustomerRow where
  customer_id : Nat
  gender : Option String
  state_code : Option String
  postal_code : Option String
deriving Repr, DecidableEq

structure FactRow where
  order_id : Option String
  date_id : Nat
  product_id : Nat
  customer_id : Option Nat
  platform_id : Nat
  units : Int
  revenue : ℚ
  state_code : Option String
deriving Repr, DecidableEq

structure State where
  staging : List StagedRow
  dim_platform : List DimPlatformRow
  dim_product : List DimProductRow
  dim_customer : List DimCustomerRow
  fact_sales : List FactRow
  nextPlatformId : Nat
  nextProductId : Nat
deriving Repr, DecidableEq

/-! #### Platform upsert (insert-only, step 4 of `main`) -/

/-- `SELECT DISTINCT s.commercePlatform ... WHERE ... IS NOT NULL AND <> ''
AND NOT EXISTS (... dim_platform ...)`. -/
def platformInsertNames (stg : List StagedRow) (dim : List DimPlatformRow) : List String :=
  ((stg.filterMap (fun r => r.commercePlatform)).dedup).filter
    (fun n => !(n == "") && !(dim.any (fun r => r.platform_name == n)))

/-- New rows with `IDENTITY` surrogate ids assigned in sequence. -/
def platformRowsFrom (start : Nat) : List String → List DimPlatformRow
  | [] => []
  | n :: ns => ⟨start, n⟩ :: platformRowsFrom (start + 1) ns

def upsert_dim_platform (st : State) : State :=
  let names := platformInsertNames st.staging st.dim_platform
  { st with dim_platform := st.dim_platform ++ platformRowsFrom st.nextPlatformId names
            nextPlatformId := st.nextPlatformId + names.length }

/-! #### Product upsert (insert-only in this ETL, step 5 of `main`;
attributes are inserted as NULL) -/

def productInsertKeys (stg : List StagedRow) (dim : List DimProductRow) : List String :=
  ((stg.filterMap (fun r => r.product_key)).dedup).filter
    (fun k => !(k == "") && !(dim.any (fun p => p.main_sku_code == k)))

def productRowsFrom (start : Nat) : List String → List DimProductRow
  | [] => []
  | k :: ks => ⟨start, k, none, none, none, none⟩ :: productRowsFrom (start + 1) ks

def upsert_dim_product (st : State) : State :=
  let keys := productInsertKeys st.staging st.dim_product
  { st with dim_product := st.dim_product ++ productRowsFrom st.nextProductId keys
            nextProductId := st.nextProductId + keys.length }

/-! #### Customer upsert (step 6 of `main`: insert of missing ids, then the
state/postal update of existing rows) -/

/-- `SELECT DISTINCT customer_id, state_code, postalCode FROM staging WHERE
customer_id IS NOT NULL`. -/
def customerStagedTriples (stg : List StagedRow) : List (Nat × Option String × Option String) :=
  (stg.filterMap (fun r => r.customer_id.map (fun i => (i, r.state_code, r.postalCode)))).dedup

def customerInsertRows (stg : List StagedRow) (dim : List DimCustomerRow) : List DimCustomerRow :=
  ((customerStagedTriples stg).filter
      (fun t => !(dim.any (fun c => c.customer_id == t.1)))).map
    (fun t => ⟨t.1, some ("Unknown"), t.2.1, t.2.2⟩)

/-- The INSERT into `dim_customer`.  SQL Server aborts the whole statement
on a primary-key violation (distinct staged attribute triples sharing one
id), leaving the table unchanged; that aborted case is modelled as the
identity on the table. -/
def insert_dim_customer (st : State) : State :=
  let rows := customerInsertRows st.staging st.dim_customer
  if (rows.map (fun c => c.customer_id)).Nodup then
    { st with dim_customer := st.dim_customer ++ rows }
  else st

/-- The UPDATE joined on customer_id with filter
`WHERE c.state_code IS NULL OR c.postal_code IS NULL`: when either stored
field is null, BOTH fields are set to the staged values (no COALESCE in the
SQL); the join picks an arbitrary matching staged triple, modelled as the
first one. -/
def customerBackfillRow (ts : List (Nat × Option String × Option String))
    (c : DimCustomerRow) : DimCustomerRow :=
  if c.state_code = none ∨ c.postal_code = none then
    match ts.find? (fun t => t.1 == c.customer_id) with
    | some t => { c with state_code := t.2.1, postal_code := t.2.2 }
    | none => c
  else c

def update_dim_customer (st : State) : State :=
  { st with dim_customer :=
      (st.dim_customer.map (customerBackfillRow (customerStagedTriples st.staging))) }

def upsert_dim_customer (st : State) : State := update_dim_customer (insert_dim_customer st)

/-- Steps 4-6 of `main`: the three dimension upserts in source order. -/
def upsert_dims (st : State) : State :=
  upsert_dim_customer (upsert_dim_product (upsert_dim_platform st))

/-! #### Fact insertion (step 8 of `main`) -/

/-- The candidate fact row of one staged row: the SELECT with its LEFT
JOINs and the WHERE filter requiring a non-null date, non-null platform
name and product key, and both joins resolving (the UNIQUE constraints on
the natural keys make each join match at most one row, modelled by
`find?`). -/
def factRowOf (pl : List DimPlatformRow) (pr : List DimProductRow) (r : StagedRow) :
    Option FactRow :=
  match r.submitTime, r.commercePlatform, r.product_key with
  | some d, some plName, some key =>
    match pl.find? (fun p => p.platform_name == plName),
          pr.find? (fun p => p.main_sku_code == key) with
    | some pRow, some prodRow =>
      some { order_id := r.orderNo, date_id := d, product_id := prodRow.product_id,
             customer_id := r.customer_id, platform_id := pRow.platform_id,
             units := r.goodsNumber.getD 1, revenue := 0, state_code := r.state_code }
    | _, _ => none
  | _, _, _ => none

def insert_fact_sales (st : State) : State :=
  { st with fact_sales := st.fact_sales ++
      st.staging.filterMap (factRowOf st.dim_platform st.dim_product) }

/-! ### Claim C1: customer backfill -/

/-- A one-customer warehouse: the stored customer 1 has a null state code
and a non-null postal code, while the staged batch carries a non-null state
code and a null postal code for the same customer id. -/
def c1State : State :=
  { staging := [{ orderNo := none, commercePlatform := none, submitTime := none,
                  product_key := none, customer_id := some 1,
                  state_code := some ("CA"), postalCode := none, goodsNumber := some 1 }]
    dim_platform := []
    dim_product := []
    dim_customer := [{ customer_id := 1, gender := some ("Unknown"),
                       state_code := none, postal_code := some ("12345") }]
    fact_sales := []
    nextPlatformId := 1
    nextProductId := 1 }

/-- Counterexample to claim C1 as stated: before the upsert customer 1
stores postal code 12345; the staged batch has a null postal code for that
customer; after the customer upsert step the stored postal code is null —
the staged null erased a non-null stored field (the state code, null
before, was filled as the claim says). -/
theorem c1_staged_null_overwrites_counterexample :
    c1State.dim_customer.map (fun c => c.postal_code) = [some ("12345")]
  ∧ c1State.dim_customer.map (fun c => c.state_code) = [none]
  ∧ (upsert_dim_customer c1State).dim_customer.map (fun c => c.postal_code) = [none]
  ∧ (upsert_dim_customer c1State).dim_customer.map (fun c => c.state_code) = [some ("CA")] := by
  decide

/-- Claim C1 as amended: for an existing customer with a null state code or
a null postal code and a matching staged triple, the update sets BOTH
fields to the staged values — a staged non-null value fills a null stored
field, but a staged null overwrites the other stored field even when it was
non-null; customers with both fields non-null, and customers without a
staged match, are left unchanged. -/
theorem c1_customer_update_sets_both_fields (st : State) (i : Nat) (c : DimCustomerRow)
    (hc : st.dim_customer[i]? = some c) :
    ((update_dim_customer st).dim_customer[i]? =
        some (customerBackfillRow (customerStagedTriples st.staging) c))
  ∧ (c.state_code ≠ none → c.postal_code ≠ none →
      customerBackfillRow (customerStagedTriples st.staging) c = c)
  ∧ (∀ t, (c.state_code = none ∨ c.postal_code = none) →
      (customerStagedTriples st.staging).find? (fun t2 => t2.1 == c.customer_id) = some t →
      customerBackfillRow (customerStagedTriples st.staging) c =
        ⟨c.customer_id, c.gender, t.2.1, t.2.2⟩)
  ∧ ((c.state_code = none ∨ c.postal_code = none) →
      (customerStagedTriples st.staging).find? (fun t2 => t2.1 == c.customer_id) = none →
      customerBackfillRow (customerStagedTriples st.staging) c = c) := by
  refine ⟨?_, ?_, ?_, ?_⟩
  · simp [update_dim_customer, List.getElem?_map, hc]
  · intro h1 h2
    simp [customerBackfillRow, h1, h2]
  · intro t hor hfind
    simp only [customerBackfillRow]
    rw [if_pos hor, hfind]
  · intro hor hfind
    simp only [customerBackfillRow]
    rw [if_pos hor, hfind]

/-- Witness for C1's amended theorem on the concrete counterexample state. -/
theorem c1_customer_update_sets_both_fields_witness :
    (update_dim_customer c1State).dim_customer[0]? =
      some (customerBackfillRow (customerStagedTriples c1State.staging)
        ⟨1, some ("Unknown"), none, some ("12345")⟩) :=
  (c1_customer_update_sets_both_fields c1State 0
    ⟨1, some ("Unknown"), none, some ("12345")⟩ (by decide)).1

/-! ### Claim C5: the fact-insertion rule -/

lemma find?_isSome_iff_exists {α : Type} (p : α → Bool) (l : List α) :
    (l.find? p).isSome = true ↔ ∃ x ∈ l, p x = true := by
  cases hf : l.find? p with
  | none =>
    simp only [Option.isSome_none]
    constructor
    · intro h; cases h
    · rintro ⟨x, hx, hpx⟩
      have := List.find?_eq_none.mp hf x hx
      simp [hpx] at this
  | some a =>
    simp only [Option.isSome_some, true_iff]
    exact ⟨a, List.mem_of_find?_eq_some hf, List.find?_some hf⟩

/-- Claim C5: the fact step inserts one row per staged row exactly when the
chosen date field is non-null and the platform name and product key each
resolve against the upserted dimensions; all other rows contribute nothing
to `fact_sales`, and the staging table (and the dimensions) are untouched
by the step. -/
theorem c5_fact_insert_requires_resolution (st : State) :
    (insert_fact_sales st).staging = st.staging
  ∧ (insert_fact_sales st).dim_platform = st.dim_platform
  ∧ (insert_fact_sales st).dim_product = st.dim_product
  ∧ (insert_fact_sales st).dim_customer = st.dim_customer
  ∧ (∀ f : FactRow, f ∈ (insert_fact_sales st).fact_sales ↔
      (f ∈ st.fact_sales ∨ ∃ r ∈ st.staging, factRowOf st.dim_platform st.dim_product r = some f))
  ∧ (∀ r ∈ st.staging,
      ((factRowOf st.dim_platform st.dim_product r).isSome = true ↔
        (r.submitTime ≠ none
          ∧ (∃ p ∈ st.dim_platform, some p.platform_name = r.commercePlatform)
          ∧ (∃ q ∈ st.dim_product, some q.main_sku_code = r.product_key)))) := by
  refine ⟨rfl, rfl, rfl, rfl, ?_, ?_⟩
  · intro f
    simp [insert_fact_sales, List.mem_filterMap]
  · intro r _
    rcases hst : r.submitTime with _ | d
    · simp [factRowOf, hst]
    rcases hcp : r.commercePlatform with _ | plName
    · simp [factRowOf, hst, hcp]
    rcases hpk : r.product_key with _ | key
    · simp [factRowOf, hst, hcp, hpk]
    have hpl := find?_isSome_iff_exists (fun p : DimPlatformRow => p.platform_name == plName)
      st.dim_platform
    have hpr := find?_isSome_iff_exists (fun q : DimProductRow => q.main_sku_code == key)
      st.dim_product
    cases hf1 : st.dim_platform.find? (fun p => p.platform_name == plName) with
    | none =>
      rw [hf1] at hpl
      simp only [Option.isSome_none, Bool.false_eq_true, false_iff] at hpl
      push_neg at hpl
      simp only [factRowOf, hst, hcp, hpk, hf1]
      constructor
      · intro h; simp at h
      · rintro ⟨-, ⟨p, hp, hpn⟩, -⟩
        have := hpl p hp
        simp at hpn
        simp [hpn] at this
    | some pRow =>
      cases hf2 : st.dim_product.find? (fun q => q.main_sku_code == key) with
      | none =>
        rw [hf2] at hpr
        simp only [Option.isSome_none, Bool.false_eq_true, false_iff] at hpr
        push_neg at hpr
        simp only [factRowOf, hst, hcp, hpk, hf1, hf2]
        constructor
        · intro h; simp at h
        · rintro ⟨-, -, ⟨q, hq, hqn⟩⟩
          have := hpr q hq
          simp at hqn
          simp [hqn] at this
      | some prodRow =>
        simp only [factRowOf, hst, hcp, hpk, hf1, hf2, Option.isSome_some, true_iff]
        refine ⟨by simp, ⟨pRow, List.mem_of_find?_eq_some hf1, ?_⟩,
          ⟨prodRow, List.mem_of_find?_eq_some hf2, ?_⟩⟩
        · have := List.find?_some hf1
          simp at this
          simp [this]
        · have := List.find?_some hf2
          simp at this
          simp [this]

/-- A tiny warehouse exercising the fact step: one staged row whose
platform and product both resolve. -/
def c5State : State :=
  { staging := [{ orderNo := some ("ORD1"), commercePlatform := some ("Amazon"),
                  submitTime := some 19752, product_key := some ("SKU1"),
                  customer_id := some 1, state_code := none, postalCode := none,
                  goodsNumber := some 2 }]
    dim_platform := [{ platform_id := 1, platform_name := ("Amazon" : String) }]
    dim_product := [{ product_id := 1, main_sku_code := ("SKU1" : String),
                      english_name := none, chinese_name := none,
                      customer_code := none, category := none }]
    dim_customer := []
    fact_sales := []
    nextPlatformId := 2
    nextProductId := 2 }

/-- Witness for C5 at the concrete one-row state. -/
theorem c5_fact_insert_requires_resolution_witness :
    (factRowOf c5State.dim_platform c5State.dim_product
        { orderNo := some ("ORD1"), commercePlatform := some ("Amazon"),
          submitTime := some 19752, product_key := some ("SKU1"),
          customer_id := some 1, state_code := none, postalCode := none,
          goodsNumber := some 2 }).isSome = true ↔
      (({ orderNo := some ("ORD1"), commercePlatform := some ("Amazon"),
          submitTime := some 19752, product_key := some ("SKU1"),
          customer_id := some 1, state_code := none, postalCode := none,
          goodsNumber := some 2 } : StagedRow).submitTime ≠ none
        ∧ (∃ p ∈ c5State.dim_platform, some p.platform_name =
            ({ orderNo := some ("ORD1"), commercePlatform := some ("Amazon"),
               submitTime := some 19752, product_key := some ("SKU1"),
               customer_id := some 1, state_code := none, postalCode := none,
               goodsNumber := some 2 } : StagedRow).commercePlatform)
        ∧ (∃ q ∈ c5State.dim_product, some q.main_sku_code =
            ({ orderNo := some ("ORD1"), commercePlatform := some ("Amazon"),
               submitTime := some 19752, product_key := some ("SKU1"),
               customer_id := some 1, state_code := none, postalCode := none,
               goodsNumber := some 2 } : StagedRow).product_key)) :=
  (c5_fact_insert_requires_resolution c5State).2.2.2.2.2
    { orderNo := some ("ORD1"), commercePlatform := some ("Amazon"),
      submitTime := some 19752, product_key := some ("SKU1"),
      customer_id := some 1, state_code := none, postalCode := none,
      goodsNumber := some 2 } (by decide)

/-! ### Claim C8: idempotence of the dimension upserts -/

lemma upsert_dims_staging (st : State) : (upsert_dims st).staging = st.staging := by
  dsimp only [upsert_dims, upsert_dim_customer, update_dim_customer, insert_dim_customer,
    upsert_dim_product, upsert_dim_platform]
  split <;> rfl

lemma upsert_dims_platform (st : State) :
    (upsert_dims st).dim_platform =
      st.dim_platform ++
        platformRowsFrom st.nextPlatformId (platformInsertNames st.staging st.dim_platform) := by
  dsimp only [upsert_dims, upsert_dim_customer, update_dim_customer, insert_dim_customer,
    upsert_dim_product, upsert_dim_platform]
  split <;> rfl

lemma upsert_dims_product (st : State) :
    (upsert_dims st).dim_product =
      st.dim_product ++
        productRowsFrom st.nextProductId (productInsertKeys st.staging st.dim_product) := by
  dsimp only [upsert_dims, upsert_dim_customer, update_dim_customer, insert_dim_customer,
    upsert_dim_product, upsert_dim_platform]
  split <;> rfl

lemma upsert_dims_customer (st : State) :
    (upsert_dims st).dim_customer =
      (if ((customerInsertRows st.staging st.dim_customer).map (fun c => c.customer_id)).Nodup
       then st.dim_customer ++ customerInsertRows st.staging st.dim_customer
       else st.dim_customer).map (customerBackfillRow (customerStagedTriples st.staging)) := by
  dsimp only [upsert_dims, upsert_dim_customer, update_dim_customer, insert_dim_customer,
    upsert_dim_product, upsert_dim_platform]
  by_cases hok : ((customerInsertRows st.staging st.dim_customer).map
      (fun c => c.customer_id)).Nodup
  · rw [if_pos hok, if_pos hok]
  · rw [if_neg hok, if_neg hok]

lemma platformRowsFrom_names (start : Nat) (names : List String) :
    (platformRowsFrom start names).map (fun r => r.platform_name) = names := by
  induction names generalizing start with
  | nil => rfl
  | cons n ns ih => simp [platformRowsFrom, ih]

lemma platformRowsFrom_any (names : List String) (n : String) :
    ∀ start : Nat, n ∈ names →
      (platformRowsFrom start names).any (fun r => r.platform_name == n) = true := by
  induction names with
  | nil => intro start h; cases h
  | cons m ms ih =>
    intro start h
    simp only [platformRowsFrom]
    rw [List.any_eq_true]
    rcases List.mem_cons.mp h with rfl | h2
    · exact ⟨⟨start, n⟩, List.mem_cons_self _ _, by simp⟩
    · have hms := ih (start + 1) h2
      rw [List.any_eq_true] at hms
      rcases hms with ⟨r, hr, hrn⟩
      exact ⟨r, List.mem_cons_of_mem _ hr, hrn⟩

lemma platformInsertNames_after (stg : List StagedRow) (dim : List DimPlatformRow) (start : Nat) :
    platformInsertNames stg (dim ++ platformRowsFrom start (platformInsertNames stg dim)) = [] := by
  conv_lhs => rw [platformInsertNames]
  rw [List.filter_eq_nil_iff]
  intro n hn hpred
  simp only [Bool.and_eq_true, Bool.not_eq_true'] at hpred
  rw [List.any_append, Bool.or_eq_false_iff] at hpred
  have hfirst : n ∈ platformInsertNames stg dim := by
    apply List.mem_filter.mpr
    exact ⟨hn, by simp [hpred.1, hpred.2.1]⟩
  have := platformRowsFrom_any (platformInsertNames stg dim) n start hfirst
  rw [hpred.2.2] at this
  cases this

lemma productRowsFrom_names (start : Nat) (keys : List String) :
    (productRowsFrom start keys).map (fun p => p.main_sku_code) = keys := by
  induction keys generalizing start with
  | nil => rfl
  | cons k ks ih => simp [productRowsFrom, ih]

lemma productRowsFrom_any (keys : List String) (k : String) :
    ∀ start : Nat, k ∈ keys →
      (productRowsFrom start keys).any (fun p => p.main_sku_code == k) = true := by
  induction keys with
  | nil => intro start h; cases h
  | cons m ms ih =>
    intro start h
    simp only [productRowsFrom]
    rw [List.any_eq_true]
    rcases List.mem_cons.mp h with rfl | h2
    · exact ⟨⟨start, k, none, none, none, none⟩, List.mem_cons_self _ _, by simp⟩
    · have hms := ih (start + 1) h2
      rw [List.any_eq_true] at hms
      rcases hms with ⟨r, hr, hrn⟩
      exact ⟨r, List.mem_cons_of_mem _ hr, hrn⟩

lemma productInsertKeys_after (stg : List StagedRow) (dim : List DimProductRow) (start : Nat) :
    productInsertKeys stg (dim ++ productRowsFrom start (productInsertKeys stg dim)) = [] := by
  conv_lhs => rw [productInsertKeys]
  rw [List.filter_eq_nil_iff]
  intro k hk hpred
  simp only [Bool.and_eq_true, Bool.not_eq_true'] at hpred
  rw [List.any_append, Bool.or_eq_false_iff] at hpred
  have hfirst : k ∈ productInsertKeys stg dim := by
    apply List.mem_filter.mpr
    exact ⟨hk, by simp [hpred.1, hpred.2.1]⟩
  have := productRowsFrom_any (productInsertKeys stg dim) k start hfirst
  rw [hpred.2.2] at this
  cases this

lemma upsert_dims_platform_len_stable (st : State) :
    ((upsert_dims (upsert_dims st)).dim_platform).length = ((upsert_dims st).dim_platform).length := by
  rw [upsert_dims_platform (upsert_dims st), upsert_dims_staging st, upsert_dims_platform st,
    platformInsertNames_after st.staging st.dim_platform st.nextPlatformId]
  simp [platformRowsFrom]

lemma upsert_dims_product_len_stable (st : State) :
    ((upsert_dims (upsert_dims st)).dim_product).length = ((upsert_dims st).dim_product).length := by
  rw [upsert_dims_product (upsert_dims st), upsert_dims_staging st, upsert_dims_product st,
    productInsertKeys_after st.staging st.dim_product st.nextProductId]
  simp [productRowsFrom]

lemma customerBackfillRow_id (ts : List (Nat × Option String × Option String))
    (c : DimCustomerRow) : (customerBackfillRow ts c).customer_id = c.customer_id := by
  simp only [customerBackfillRow]
  split
  · split <;> rfl
  · rfl

lemma any_id_map_backfill (ts : List (Nat × Option String × Option String))
    (l : List DimCustomerRow) (x : Nat) :
    ((l.map (customerBackfillRow ts)).any (fun c => c.customer_id == x))
      = (l.any (fun c => c.customer_id == x)) := by
  induction l with
  | nil => rfl
  | cons c cs ih => simp [List.any_cons, customerBackfillRow_id, ih]

lemma ids_map_backfill (ts : List (Nat × Option String × Option String))
    (l : List DimCustomerRow) :
    (l.map (customerBackfillRow ts)).map (fun c => c.customer_id)
      = l.map (fun c => c.customer_id) := by
  rw [List.map_map]
  apply List.map_congr_left
  intro c _
  simp [customerBackfillRow_id]

lemma customerInsertRows_map_backfill (stg : List StagedRow) (dim : List DimCustomerRow) :
    customerInsertRows stg (dim.map (customerBackfillRow (customerStagedTriples stg)))
      = customerInsertRows stg dim := by
  unfold customerInsertRows
  congr 1
  apply List.filter_congr
  intro t _
  rw [any_id_map_backfill]

lemma customerInsertRows_any (stg : List StagedRow) (dim : List DimCustomerRow)
    (t : Nat × Option String × Option String) (ht : t ∈ customerStagedTriples stg)
    (hnot : dim.any (fun c => c.customer_id == t.1) = false) :
    (customerInsertRows stg dim).any (fun c => c.customer_id == t.1) = true := by
  rw [List.any_eq_true]
  refine ⟨⟨t.1, some ("Unknown"), t.2.1, t.2.2⟩, ?_, by simp⟩
  unfold customerInsertRows
  apply List.mem_map.mpr
  refine ⟨t, ?_, rfl⟩
  apply List.mem_filter.mpr
  exact ⟨ht, by simp [hnot]⟩

lemma customerInsertRows_after_insert (stg : List StagedRow) (dim : List DimCustomerRow) :
    customerInsertRows stg (dim ++ customerInsertRows stg dim) = [] := by
  conv_lhs => rw [customerInsertRows]
  rw [List.map_eq_nil_iff, List.filter_eq_nil_iff]
  intro t ht hpred
  simp only [Bool.not_eq_true'] at hpred
  rw [List.any_append, Bool.or_eq_false_iff] at hpred
  have := customerInsertRows_any stg dim t ht hpred.1
  rw [hpred.2] at this
  cases this
  -- the filter result is empty, so the subsequent map is empty as well

lemma customerInsertRows_after_insert_rows (stg : List StagedRow) (dim : List DimCustomerRow) :
    customerInsertRows stg
        ((dim ++ customerInsertRows stg dim).map
          (customerBackfillRow (customerStagedTriples stg))) = [] := by
  rw [customerInsertRows_map_backfill]
  -- reduce to the unmapped table
  have h := customerInsertRows_after_insert stg dim
  -- the filter in customerInsertRows is empty; its map is therefore empty
  exact h

lemma upsert_dims_customer_len_stable (st : State) :
    ((upsert_dims (upsert_dims st)).dim_customer).length
      = ((upsert_dims st).dim_customer).length := by
  rw [upsert_dims_customer (upsert_dims st), upsert_dims_staging st, upsert_dims_customer st]
  by_cases hok : ((customerInsertRows st.staging st.dim_customer).map
      (fun c => c.customer_id)).Nodup
  · rw [if_pos hok, customerInsertRows_after_insert_rows st.staging st.dim_customer]
    simp
  · rw [if_neg hok, customerInsertRows_map_backfill st.staging st.dim_customer, if_neg hok]
    simp

lemma upsert_platform_names_nodup (st : State)
    (h : (st.dim_platform.map (fun r => r.platform_name)).Nodup) :
    (((upsert_dims st).dim_platform).map (fun r => r.platform_name)).Nodup := by
  rw [upsert_dims_platform st, List.map_append, platformRowsFrom_names]
  refine List.Nodup.append h (List.Nodup.filter _ (List.nodup_dedup _)) ?_
  intro a ha hb
  have hpred := List.of_mem_filter hb
  simp only [Bool.and_eq_true, Bool.not_eq_true'] at hpred
  rcases List.mem_map.mp ha with ⟨r, hr, rfl⟩
  have hany : st.dim_platform.any (fun r2 => r2.platform_name == r.platform_name) = true :=
    List.any_eq_true.mpr ⟨r, hr, by simp⟩
  rw [hpred.2] at hany
  cases hany

lemma upsert_product_keys_nodup (st : State)
    (h : (st.dim_product.map (fun p => p.main_sku_code)).Nodup) :
    (((upsert_dims st).dim_product).map (fun p => p.main_sku_code)).Nodup := by
  rw [upsert_dims_product st, List.map_append, productRowsFrom_names]
  refine List.Nodup.append h (List.Nodup.filter _ (List.nodup_dedup _)) ?_
  intro a ha hb
  have hpred := List.of_mem_filter hb
  simp only [Bool.and_eq_true, Bool.not_eq_true'] at hpred
  rcases List.mem_map.mp ha with ⟨r, hr, rfl⟩
  have hany : st.dim_product.any (fun r2 => r2.main_sku_code == r.main_sku_code) = true :=
    List.any_eq_true.mpr ⟨r, hr, by simp⟩
  rw [hpred.2] at hany
  cases hany

lemma upsert_customer_ids_nodup (st : State)
    (h : (st.dim_customer.map (fun c => c.customer_id)).Nodup) :
    (((upsert_dims st).dim_customer).map (fun c => c.customer_id)).Nodup := by
  rw [upsert_dims_customer st]
  by_cases hok : ((customerInsertRows st.staging st.dim_customer).map
      (fun c => c.customer_id)).Nodup
  · rw [if_pos hok, ids_map_backfill, List.map_append]
    refine List.Nodup.append h hok ?_
    intro a ha hb
    rcases List.mem_map.mp hb with ⟨c, hc, rfl⟩
    rcases List.mem_map.mp ha with ⟨c0, hc0, hEq⟩
    unfold customerInsertRows at hc
    rcases List.mem_map.mp hc with ⟨t, htf, rfl⟩
    have hpred := List.of_mem_filter htf
    simp only [Bool.not_eq_true'] at hpred
    have hany : st.dim_customer.any (fun c2 => c2.customer_id == t.1) = true :=
      List.any_eq_true.mpr ⟨c0, hc0, by simp [hEq]⟩
    rw [hpred] at hany
    cases hany
  · rw [if_neg hok, ids_map_backfill]
    exact h

/-- Claim C8: applying the three dimension upserts a second time with the
same staged batch leaves the row count of each of `dim_platform`,
`dim_product`, and `dim_customer` unchanged, and a dimension whose natural
keys (platform name, main SKU code, customer id) are duplicate-free stays
duplicate-free across an upsert, so no duplicate natural key ever appears. -/
theorem c8_dimension_upsert_idempotent (st : State) :
    ((upsert_dims (upsert_dims st)).dim_platform).length = ((upsert_dims st).dim_platform).length
  ∧ ((upsert_dims (upsert_dims st)).dim_product).length = ((upsert_dims st).dim_product).length
  ∧ ((upsert_dims (upsert_dims st)).dim_customer).length = ((upsert_dims st).dim_customer).length
  ∧ ((st.dim_platform.map (fun r => r.platform_name)).Nodup →
      (((upsert_dims st).dim_platform).map (fun r => r.platform_name)).Nodup)
  ∧ ((st.dim_product.map (fun p => p.main_sku_code)).Nodup →
      (((upsert_dims st).dim_product).map (fun p => p.main_sku_code)).Nodup)
  ∧ ((st.dim_customer.map (fun c => c.customer_id)).Nodup →
      (((upsert_dims st).dim_customer).map (fun c => c.customer_id)).Nodup) :=
  ⟨upsert_dims_platform_len_stable st, upsert_dims_product_len_stable st,
   upsert_dims_customer_len_stable st, upsert_platform_names_nodup st,
   upsert_product_keys_nodup st, upsert_customer_ids_nodup st⟩

/-- A small warehouse for the C8 witness: one existing platform and
product, a staged batch that introduces a new platform, product and
customer. -/
def c8State : State :=
  { staging := [{ orderNo := some ("ORD2"), commercePlatform := some ("eBay"),
                  submitTime := some 19753, product_key := some ("SKU2"),
                  customer_id := some 7, state_code := some ("TX"), postalCode := some ("75001"),
                  goodsNumber := some 1 }]
    dim_platform := [{ platform_id := 1, platform_name := ("Amazon" : String) }]
    dim_product := [{ product_id := 1, main_sku_code := ("SKU1" : String),
                      english_name := none, chinese_name := none,
                      customer_code := none, category := none }]
    dim_customer := [{ customer_id := 3, gender := some ("Unknown"),
                       state_code := none, postal_code := none }]
    fact_sales := []
    nextPlatformId := 2
    nextProductId := 2 }

/-- Witness for C8: the Nodup-preservation conjuncts discharged at the
concrete state. -/
theorem c8_dimension_upsert_idempotent_witness :
    (((upsert_dims c8State).dim_platform).map (fun r => r.platform_name)).Nodup
  ∧ (((upsert_dims c8State).dim_product).map (fun p => p.main_sku_code)).Nodup
  ∧ (((upsert_dims c8State).dim_customer).map (fun c => c.customer_id)).Nodup :=
  ⟨(c8_dimension_upsert_idempotent c8State).2.2.2.1 (by decide),
   (c8_dimension_upsert_idempotent c8State).2.2.2.2.1 (by decide),
   (c8_dimension_upsert_idempotent c8State).2.2.2.2.2 (by decide)⟩

end SalesETL
